import Mathlib

/-!
Shallow embedding of `src/main.py`, a contact-book program: the `Field`
subclasses (`Name`, `Phone`, `Birthday`), `Record`, `AddressBook`, and the
`add_contact` command handler.  Python exceptions are modelled as
`Except String` (or an `Option String` error component) carrying the
exception message; in-place mutation is modelled by returning the updated
state.  `datetime.date` values are modelled by `Date` triples below.
-/

/-- Calendar dates as in the Python `datetime.date` type (proleptic
Gregorian calendar, naive dates). -/
structure Date where
  year : Nat
  month : Nat
  day : Nat
deriving DecidableEq, Repr

/-- Gregorian leap-year rule used by `datetime.date`. -/
def isLeap (y : Nat) : Bool := y % 4 == 0 && (y % 100 != 0 || y % 400 == 0)

/-- Number of days in month `m` of year `y`. -/
def daysInMonth (y m : Nat) : Nat :=
  if m = 2 then (if isLeap y then 29 else 28)
  else if m = 4 ∨ m = 6 ∨ m = 9 ∨ m = 11 then 30
  else 31

/-- The validity check `datetime.date` runs on construction
(`MINYEAR = 1`, `MAXYEAR = 9999`, month in range, day in range for the
month). -/
def dateValid (d : Date) : Bool :=
  decide (1 ≤ d.year) && decide (d.year ≤ 9999) &&
  decide (1 ≤ d.month) && decide (d.month ≤ 12) &&
  decide (1 ≤ d.day) && decide (d.day ≤ daysInMonth d.year d.month)

/-- The Python `date.replace(year=y)`: revalidates the triple; `none`
models the `ValueError` it raises, e.g. for Feb 29 mapped into a
non-leap year: `ValueError: day is out of range for month`. -/
def replaceYear (d : Date) (y : Nat) : Option Date :=
  if dateValid ⟨y, d.month, d.day⟩ then some ⟨y, d.month, d.day⟩ else none

/-- Chronological order on dates; Python compares `date` values
chronologically, which is lexicographic on (year, month, day). -/
def Date.leb (a b : Date) : Bool :=
  Nat.blt a.year b.year || (a.year == b.year &&
    (Nat.blt a.month b.month || (a.month == b.month && Nat.ble a.day b.day)))

/-- Strict chronological order on dates. -/
def Date.ltb (a b : Date) : Bool :=
  Nat.blt a.year b.year || (a.year == b.year &&
    (Nat.blt a.month b.month || (a.month == b.month && Nat.blt a.day b.day)))

/-- The next calendar day. -/
def Date.succ (d : Date) : Date :=
  if d.day < daysInMonth d.year d.month then ⟨d.year, d.month, d.day + 1⟩
  else if d.month < 12 then ⟨d.year, d.month + 1, 1⟩
  else ⟨d.year + 1, 1, 1⟩

/-- The Python `d + timedelta(days=n)` for a nonnegative number of days. -/
def addDays (d : Date) : Nat → Date
  | 0 => d
  | n + 1 => addDays (Date.succ d) n

/-- The Python `date.weekday()` (Monday = 0, ..., Sunday = 6), computed
with the Zeller congruence (January and February are counted as months 13
and 14 of the previous year; the raw Zeller value 0 denotes Saturday and
is shifted to the Monday-based convention). -/
def pyWeekday (d : Date) : Nat :=
  let m := if d.month ≤ 2 then d.month + 12 else d.month
  let y := if d.month ≤ 2 then d.year - 1 else d.year
  let K := y % 100
  let J := y / 100
  ((d.day + 13 * (m + 1) / 5 + K + K / 4 + J / 4 + 5 * J) % 7 + 5) % 7

/-- Zero-padding to two digits, as the `strftime` codes for day and month
produce. -/
def pad2 (n : Nat) : String := if n < 10 then "0" ++ toString n else toString n

/-- Zero-padding to four digits, as the `strftime` code for the year
produces for the years handled here. -/
def pad4 (n : Nat) : String :=
  if n < 10 then "000" ++ toString n
  else if n < 100 then "00" ++ toString n
  else if n < 1000 then "0" ++ toString n
  else toString n

/-- Formatting of one result entry of `get_upcoming_birthdays`: the source
appends the name, a colon and the date formatted by `strftime` with the
day, month and year codes separated by commas (not dots). -/
def fmtEntry (name : String) (d : Date) : String :=
  name ++ ": " ++ pad2 d.day ++ "," ++ pad2 d.month ++ "," ++ pad4 d.year

/-- The Python `str.isdigit` on the character lists handled here: true iff
the string is nonempty and every character is a decimal digit. -/
def pyIsDigit (l : List Char) : Bool := !l.isEmpty && l.all Char.isDigit

/-- Validation run by the `Phone.value` setter in the source:
`len(value[1:]) <= 15 and value[1:].isdigit()` — the characters after the
first one form a nonempty run of at most 15 digits; the first character is
never inspected. -/
def phone_valid (s : String) : Bool :=
  decide ((s.toList.drop 1).length ≤ 15) && pyIsDigit (s.toList.drop 1)

/-- Construction `Phone(value)`: the setter stores the string unchanged
when it accepts it, otherwise it raises `ValueError` with this message.
A `Phone` object is modelled by its stored value string. -/
def Phone.make (s : String) : Except String String :=
  if phone_valid s then .ok s else .error "Wrong telephone number"

/-- One contact.  `Record.__init__` stores `Name(name)` — `Name.__init__`
performs no validation, it just stores the raw string via
`Field.__init__` — together with an empty phone list and no birthday.
`Phone` objects are modelled by their validated value strings and
`Birthday` objects by their parsed `date` field. -/
structure Record where
  name : String
  phones : List String
  birthday : Option Date
deriving DecidableEq, Repr

/-- The Python `Record(name)` constructor. -/
def Record.init (name : String) : Record := ⟨name, [], none⟩

/-- The method `Record.add_phone`: builds `Phone(phone)` and appends it;
a `ValueError` raised by the constructor is re-raised with the message
extended by `Error adding phone: `. -/
def Record.add_phone (r : Record) (phone : String) : Except String Record :=
  match Phone.make phone with
  | .ok p => .ok { r with phones := r.phones ++ [p] }
  | .error e => .error ("Error adding phone: " ++ e)

/-- Loop of `Record.edit_phone` over the phone values: at the first value
equal to `old_phone`, validate `new_phone` as a `Phone` (raising
`Error: ...` on rejection, before any mutation) and overwrite the stored
value; when no value matches, raise the not-found `ValueError`.  The
returned pair is (raised exception message if any, phone list after the
call). -/
def editPhoneList : List String → String → String → Option String × List String
  | [], _, _ => (some "Phone number not found in record.", [])
  | p :: ps, old_phone, new_phone =>
    if p = old_phone then
      match Phone.make new_phone with
      | .error e => (some ("Error: " ++ e), p :: ps)
      | .ok np => (none, np :: ps)
    else
      let res := editPhoneList ps old_phone new_phone
      (res.1, p :: res.2)

/-- The method `Record.edit_phone(old_phone, new_phone)`. -/
def Record.edit_phone (r : Record) (old_phone new_phone : String) :
    Option String × Record :=
  let res := editPhoneList r.phones old_phone new_phone
  (res.1, { r with phones := res.2 })

/-- State of `AddressBook` (a `UserDict`): an insertion-ordered mapping
from name string to `Record`, modelled as an association list; dict
semantics keeps the keys unique in every reachable state. -/
abbrev Book := List (String × Record)

/-- The method `AddressBook.add_record`:
`self.data[record.name.value] = record` — replaces the value in place
when the key already exists (keeping its position, as Python dicts do),
otherwise appends the new entry. -/
def AddressBook.add_record : Book → Record → Book
  | [], r => [(r.name, r)]
  | (k, v) :: rest, r =>
    if k = r.name then (k, r) :: rest else (k, v) :: AddressBook.add_record rest r

/-- The method `AddressBook.find`: `self.data.get(name)` — `None` when
absent. -/
def AddressBook.find : Book → String → Option Record
  | [], _ => none
  | (k, v) :: rest, n => if k = n then some v else AddressBook.find rest n

/-- Removal of the entry keyed `n`, as the dict `del` statement performs
on its unique entry for the key. -/
def AddressBook.erase : Book → String → Book
  | [], _ => []
  | (k, v) :: rest, n => if k = n then rest else (k, v) :: AddressBook.erase rest n

/-- The method `AddressBook.delete`: `del self.data[name]` — removes the
entry when present and raises `KeyError(name)` when the key is absent. -/
def AddressBook.delete (book : Book) (name : String) : Except String Book :=
  if (AddressBook.find book name).isSome then .ok (AddressBook.erase book name)
  else .error name

/-- The method `AddressBook.find_next_weekday(day, weekday)`:
`days_ahead = weekday - day.weekday()`; when `days_ahead <= 0` it is
increased by 7, the result day is computed, pushed past a weekend if it
lands on one, and returned; otherwise the function falls through and
returns `None`. -/
def AddressBook.find_next_weekday (day : Date) (weekday : Nat) : Option Date :=
  let wd := pyWeekday day
  if weekday ≤ wd then
    let days_ahead := weekday + 7 - wd
    let next_weekday := addDays day days_ahead
    if pyWeekday next_weekday == 5 || pyWeekday next_weekday == 6 then
      some (addDays next_weekday (7 - pyWeekday next_weekday))
    else some next_weekday
  else none

/-- Weekend adjustment applied inside `get_upcoming_birthdays`: when the
date falls on Saturday (5) or Sunday (6) it is replaced by
`find_next_weekday(date, 0)`; `none` would mean that call fell through
and produced `None`. -/
def rollWeekend (d : Date) : Option Date :=
  if pyWeekday d == 5 || pyWeekday d == 6 then AddressBook.find_next_weekday d 0
  else some d

/-- Loop body of `AddressBook.get_upcoming_birthdays` for one record:
compute the candidate occurrence of the birthday in the year of `today`
(`date.replace`), include it when it lies in `[today, next_week]`, else
when it is already past recompute with the next year and window-check
again; an included date is weekend-rolled and the entry is produced as a
name and date pair.  The error cases model the `ValueError` raised by
`date.replace` (a Feb 29 birthday mapped into a non-leap year) and the
`AttributeError` that formatting a `None` date would raise. -/
def upcoming_step (today next_week : Date) (r : Record) :
    Except String (Option (String × Date)) :=
  match r.birthday with
  | none => .ok none
  | some bd =>
    match replaceYear bd today.year with
    | none => .error "day is out of range for month"
    | some nb =>
      if Date.leb today nb && Date.leb nb next_week then
        match rollWeekend nb with
        | some d => .ok (some (r.name, d))
        | none => .error "AttributeError"
      else if Date.ltb nb today then
        match replaceYear bd (today.year + 1) with
        | none => .error "day is out of range for month"
        | some nb2 =>
          if Date.leb today nb2 && Date.leb nb2 next_week then
            match rollWeekend nb2 with
            | some d => .ok (some (r.name, d))
            | none => .error "AttributeError"
          else .ok none
      else .ok none

/-- The loop of `get_upcoming_birthdays` over `self.values()` (the
records in insertion order), accumulating the included entries in order
and propagating any raised exception. -/
def upcomingEntriesAux (today next_week : Date) :
    Book → Except String (List (String × Date))
  | [] => .ok []
  | (_, r) :: rest =>
    match upcoming_step today next_week r with
    | .error e => .error e
    | .ok none => upcomingEntriesAux today next_week rest
    | .ok (some entry) =>
      match upcomingEntriesAux today next_week rest with
      | .error e => .error e
      | .ok l => .ok (entry :: l)

/-- Name and date pairs collected by `AddressBook.get_upcoming_birthdays`,
with `today` standing for `datetime.today().date()` and the window bound
`next_week = current_date + timedelta(weeks=1)` fixed at seven days. -/
def AddressBook.upcomingEntries (book : Book) (today : Date) :
    Except String (List (String × Date)) :=
  upcomingEntriesAux today (addDays today 7) book

/-- The method `AddressBook.get_upcoming_birthdays(days=7)`: the source
appends the formatted string for each included record at the moment of
inclusion; this is modelled as formatting the collected pairs in order,
which yields the same list of strings.  The `days` parameter is declared
with default value 7 in the source and is never read by the body. -/
def AddressBook.get_upcoming_birthdays (book : Book) (today : Date) (days : Nat) :
    Except String (List String) :=
  (AddressBook.upcomingEntries book today).map (List.map fun e => fmtEntry e.1 e.2)

/-- The command handler `add_contact(args, book)` (without the
`input_error` decorator, which only stringifies the raised exception).
It checks the arity, looks the name up, creates and inserts a fresh
`Record` when the name is new, and then adds the phone.  In the source
`book.add_record(record)` runs before `record.add_phone(phone)` and the
book aliases the record object, so the final book holds the record as
left by `add_phone` — including the case where `add_phone` raises and
the freshly inserted record keeps its empty phone list. -/
def add_contact (args : List String) (book : Book) : Except String String × Book :=
  match args with
  | [name, phone] =>
    match AddressBook.find book name with
    | none =>
      let record := Record.init name
      if phone ≠ "" then
        match Record.add_phone record phone with
        | .ok r2 => (.ok "Contact added.", AddressBook.add_record book r2)
        | .error e => (.error e, AddressBook.add_record book record)
      else (.ok "Contact added.", AddressBook.add_record book record)
    | some record =>
      if phone ≠ "" then
        match Record.add_phone record phone with
        | .ok r2 => (.ok "Contact updated.", AddressBook.add_record book r2)
        | .error e => (.error e, book)
      else (.ok "Contact updated.", book)
  | _ => (.error "Expected Name and Phone number", book)

/-- Concrete book used for the claims about the birthday window: one
record `Ann` with birthday 16.03.1990. -/
def book5 : Book := [("Ann", ⟨"Ann", [], some ⟨1990, 3, 16⟩⟩)]

/-- Concrete book with one record `Ann` with birthday 07.03.1990. -/
def book6 : Book := [("Ann", ⟨"Ann", [], some ⟨1990, 3, 7⟩⟩)]

/-- Concrete book with one record `Bob` with a leap-day birthday
29.02.2000. -/
def book7 : Book := [("Bob", ⟨"Bob", [], some ⟨2000, 2, 29⟩⟩)]

/-- Concrete book with records `A` (birthday 09.03.1990) and `B`
(birthday 05.03.1985), inserted in that order. -/
def book8 : Book :=
  [("A", ⟨"A", [], some ⟨1990, 3, 9⟩⟩), ("B", ⟨"B", [], some ⟨1985, 3, 5⟩⟩)]

/-- Helper: a successful `Phone.make` echoes the input and certifies the
setter predicate. -/
theorem Phone.make_ok (s p : String) (h : Phone.make s = .ok p) :
    p = s ∧ phone_valid s = true := by
  unfold Phone.make at h
  by_cases hv : phone_valid s = true
  · rw [if_pos hv] at h
    injection h with h1
    exact ⟨h1.symm, hv⟩
  · rw [if_neg hv] at h
    cases h

/-- C1: as stated the claim fails on the code: the string "12345" has
five characters, not ten, yet the `Phone` constructor accepts it and
stores it unchanged, because the setter only checks the characters after
the first one. -/
theorem phone_make_accepts_short_string :
    Phone.make "12345" = Except.ok "12345" ∧ "12345".toList.length ≠ 10 :=
  ⟨rfl, by decide⟩

/-- C1 (amended): every 10-digit numeric string is accepted by the
`Phone` constructor with the stored value echoing the input unchanged;
in general the constructor accepts exactly the strings whose characters
after the first form a nonempty run of at most 15 digits, and rejects
every other string with the `ValueError` message. -/
theorem phone_make_characterization :
    (∀ s : String, s.toList.length = 10 → (∀ c ∈ s.toList, c.isDigit = true) →
      Phone.make s = .ok s) ∧
    (∀ s : String, phone_valid s = true → Phone.make s = .ok s) ∧
    (∀ s : String, phone_valid s = false →
      Phone.make s = .error "Wrong telephone number") := by
  refine ⟨?_, ?_, ?_⟩
  · intro s hlen hdig
    have hlen9 : (s.toList.drop 1).length = 9 := by
      rw [List.length_drop, hlen]
    have hv : phone_valid s = true := by
      unfold phone_valid pyIsDigit
      refine Bool.and_eq_true_iff.mpr ⟨decide_eq_true ?_, Bool.and_eq_true_iff.mpr ⟨?_, ?_⟩⟩
      · omega
      · have hne : s.toList.drop 1 ≠ [] := by
          intro hnil
          rw [hnil] at hlen9
          simp at hlen9
        simpa [List.isEmpty_iff, List.drop_one] using hne
      · exact List.all_eq_true.mpr fun c hc => hdig c (List.drop_subset 1 s.toList hc)
    unfold Phone.make
    rw [if_pos hv]
  · intro s hv
    unfold Phone.make
    rw [if_pos hv]
  · intro s hv
    unfold Phone.make
    rw [if_neg (by rw [hv]; exact Bool.false_ne_true)]

/-- C1 (witness): the theorem applied at the concrete strings
"0123456789" (ten digits, accepted), "12" (accepted by the code rule)
and "" (rejected). -/
theorem phone_make_characterization_witness :
    Phone.make "0123456789" = Except.ok "0123456789" ∧
    Phone.make "12" = Except.ok "12" ∧
    Phone.make "" = Except.error "Wrong telephone number" :=
  ⟨phone_make_characterization.1 "0123456789" (by decide) (by decide),
   phone_make_characterization.2.1 "12" (by decide),
   phone_make_characterization.2.2 "" (by decide)⟩

/-- Helper: when `editPhoneList` reports an exception, the resulting
phone list is the input list. -/
theorem editPhoneList_error_unchanged (l : List String) (o n e : String)
    (h : (editPhoneList l o n).1 = some e) : (editPhoneList l o n).2 = l := by
  induction l with
  | nil => rfl
  | cons p ps ih =>
    by_cases hp : p = o
    · unfold editPhoneList at h ⊢
      rw [if_pos hp] at h ⊢
      cases hm : Phone.make n with
      | ok np =>
        rw [hm] at h
        simp at h
      | error ee => rfl
    · unfold editPhoneList at h ⊢
      rw [if_neg hp] at h ⊢
      simp only at h ⊢
      rw [ih h]

/-- C3: `Record.edit_phone` is atomic — whenever the call raises (either
the not-found case or the rejection of the new value), the phone list of
the record after the call is exactly the phone list before it. -/
theorem edit_phone_atomic (r : Record) (o n e : String)
    (h : (Record.edit_phone r o n).1 = some e) :
    (Record.edit_phone r o n).2 = r := by
  unfold Record.edit_phone at h ⊢
  simp only at h ⊢
  rw [editPhoneList_error_unchanged r.phones o n e h]

/-- C3 (witness): a not-found edit on a concrete record leaves it
unchanged. -/
theorem edit_phone_atomic_witness :
    (Record.edit_phone ⟨"W", ["0123456789"], none⟩ "999" "111").2
      = ⟨"W", ["0123456789"], none⟩ :=
  edit_phone_atomic ⟨"W", ["0123456789"], none⟩ "999" "111"
    "Phone number not found in record." rfl

/-- C9: as stated the claim fails on the code: `Name.__init__` performs
no validation at all, so a `Record` whose name value is the empty string
(or whitespace only — every character of it is whitespace, so its trimmed
form is empty) is constructed without any error. -/
theorem record_empty_name_exists :
    (Record.init "").name = "" ∧ (Record.init "   ").name = "   " ∧
    "   ".toList.all Char.isWhitespace = true :=
  ⟨rfl, rfl, by decide⟩

/-- C9 (amended): `Name` construction performs no validation; `Record`
creation stores any string, including an empty or whitespace-only one,
unchanged as the name, with an empty phone list and no birthday. -/
theorem record_name_unvalidated (s : String) : Record.init s = ⟨s, [], none⟩ := rfl

/-- Helper: `editPhoneList` keeps every phone value satisfying the setter
predicate, because a replacement value is validated before it is written. -/
theorem editPhoneList_valid (l : List String) (o n : String)
    (h : ∀ p ∈ l, phone_valid p = true) :
    ∀ p ∈ (editPhoneList l o n).2, phone_valid p = true := by
  induction l with
  | nil =>
    intro p hp
    cases hp
  | cons q qs ih =>
    by_cases hq : q = o
    · unfold editPhoneList
      rw [if_pos hq]
      cases hm : Phone.make n with
      | ok np =>
        intro p hp
        rcases List.mem_cons.mp hp with h1 | h1
        · rw [h1, (Phone.make_ok n np hm).1]
          exact (Phone.make_ok n np hm).2
        · exact h p (List.mem_cons_of_mem q h1)
      | error ee =>
        intro p hp
        exact h p hp
    · unfold editPhoneList
      rw [if_neg hq]
      intro p hp
      rcases List.mem_cons.mp hp with h1 | h1
      · exact h p (h1 ▸ List.mem_cons_self q qs)
      · exact ih (fun x hx => h x (List.mem_cons_of_mem q hx)) p h1

/-- C10: the phone list invariant — every stored phone value satisfies
the setter predicate (the characters after the first one are a nonempty
run of at most 15 digits).  A fresh record starts with an empty (hence
valid) list, a successful `add_phone` only appends a value the setter
accepted, and `edit_phone` only overwrites a value with one the setter
accepted, in every case before any mutation happens. -/
theorem phone_list_invariant :
    (∀ s : String, (Record.init s).phones = []) ∧
    (∀ (r : Record) (s : String) (r2 : Record), Record.add_phone r s = .ok r2 →
      (∀ p ∈ r.phones, phone_valid p = true) →
      ∀ p ∈ r2.phones, phone_valid p = true) ∧
    (∀ (r : Record) (o n : String), (∀ p ∈ r.phones, phone_valid p = true) →
      ∀ p ∈ (Record.edit_phone r o n).2.phones, phone_valid p = true) := by
  refine ⟨fun _ => rfl, ?_, ?_⟩
  · intro r s r2 hadd hval
    unfold Record.add_phone at hadd
    cases hm : Phone.make s with
    | ok p0 =>
      rw [hm] at hadd
      injection hadd with h2
      rw [← h2]
      intro p hp
      simp only [List.mem_append, List.mem_singleton] at hp
      rcases hp with h3 | h3
      · exact hval p h3
      · rw [h3, (Phone.make_ok s p0 hm).1]
        exact (Phone.make_ok s p0 hm).2
    | error ee =>
      rw [hm] at hadd
      cases hadd
  · intro r o n hval
    exact editPhoneList_valid r.phones o n hval

/-- C10 (witness): the invariant theorem applied to a concrete record,
a concrete successful `add_phone` and a concrete `edit_phone`. -/
theorem phone_list_invariant_witness :
    phone_valid "123" = true ∧ phone_valid "0123456789" = true :=
  ⟨phone_list_invariant.2.1 (Record.init "A") "123" ⟨"A", ["123"], none⟩ rfl
      (by simp [Record.init]) "123" (by simp),
   phone_list_invariant.2.2 ⟨"B", ["0123456789"], none⟩ "x" "y" (by decide)
      "0123456789" (by decide)⟩

/-- Helper: a lookup miss means the key is not among the entries. -/
theorem find_eq_none_of_not_mem (book : Book) (n : String)
    (h : n ∉ book.map Prod.fst) : AddressBook.find book n = none := by
  induction book with
  | nil => rfl
  | cons hd tl ih =>
    obtain ⟨k, v⟩ := hd
    unfold AddressBook.find
    simp only [List.map_cons, List.mem_cons] at h
    rw [if_neg fun hk => h (Or.inl hk.symm)]
    exact ih fun hk => h (Or.inr hk)

/-- Helper: erasing one key leaves lookups of every other key unchanged. -/
theorem find_erase_other (book : Book) (n k : String) (hk : k ≠ n) :
    AddressBook.find (AddressBook.erase book n) k = AddressBook.find book k := by
  induction book with
  | nil => rfl
  | cons hd tl ih =>
    obtain ⟨k0, v0⟩ := hd
    by_cases h0 : k0 = n
    · have hnk : n ≠ k := fun he => hk he.symm
      simp [AddressBook.erase, AddressBook.find, h0, hnk]
    · by_cases h1 : k0 = k
      · simp [AddressBook.erase, AddressBook.find, h0, h1, hk]
      · simp [AddressBook.erase, AddressBook.find, h0, h1, ih]

/-- Helper: with unique keys, erasing a key makes its lookup miss. -/
theorem find_erase_self (book : Book) (n : String)
    (hnd : (book.map Prod.fst).Nodup) :
    AddressBook.find (AddressBook.erase book n) n = none := by
  induction book with
  | nil => rfl
  | cons hd tl ih =>
    obtain ⟨k0, v0⟩ := hd
    simp only [List.map_cons, List.nodup_cons] at hnd
    unfold AddressBook.erase
    by_cases h0 : k0 = n
    · rw [if_pos h0]
      exact find_eq_none_of_not_mem tl n (h0 ▸ hnd.1)
    · rw [if_neg h0]
      unfold AddressBook.find
      rw [if_neg h0]
      exact ih hnd.2

/-- C4: as stated the claim fails on the code: `delete` of an absent name
is not a silent no-op — `del self.data[name]` raises `KeyError` (carrying
the name), here on the empty directory. -/
theorem delete_absent_raises :
    AddressBook.delete ([] : Book) "Bob" = Except.error "Bob" := rfl

/-- C4 (amended): `delete(name)` raises `KeyError` when the name is
absent; when the name is present (keys being unique in a dict) it removes
exactly that entry: afterwards the name no longer resolves, and every
other lookup is unchanged. -/
theorem delete_behavior (book : Book) (name : String) :
    (AddressBook.find book name = none →
      AddressBook.delete book name = .error name) ∧
    (∀ r, AddressBook.find book name = some r → (book.map Prod.fst).Nodup →
      AddressBook.delete book name = .ok (AddressBook.erase book name) ∧
      AddressBook.find (AddressBook.erase book name) name = none ∧
      ∀ k, k ≠ name →
        AddressBook.find (AddressBook.erase book name) k = AddressBook.find book k) := by
  constructor
  · intro h
    unfold AddressBook.delete
    rw [h]
    rfl
  · intro r hfind hnd
    refine ⟨?_, find_erase_self book name hnd, fun k hk => find_erase_other book name k hk⟩
    unfold AddressBook.delete
    rw [hfind]
    rfl

/-- C4 (witness): the amended theorem applied to a concrete one-entry
book (present key: the entry disappears) and to the empty book (absent
key: `KeyError`). -/
theorem delete_behavior_witness :
    AddressBook.find (AddressBook.erase [("A", Record.init "A")] "A") "A" = none ∧
    AddressBook.delete ([] : Book) "Ann" = Except.error "Ann" :=
  ⟨((delete_behavior [("A", Record.init "A")] "A").2 (Record.init "A") rfl
      (by simp)).2.1,
   (delete_behavior ([] : Book) "Ann").1 rfl⟩

/-- Helper: unfolding equation of `AddressBook.find` on a cons cell. -/
theorem find_cons (k0 : String) (v0 : Record) (tl : Book) (n : String) :
    AddressBook.find ((k0, v0) :: tl) n
      = if k0 = n then some v0 else AddressBook.find tl n := rfl

/-- Helper: unfolding equation of `AddressBook.add_record` on a cons
cell. -/
theorem add_record_cons (k0 : String) (v0 : Record) (tl : Book) (r : Record) :
    AddressBook.add_record ((k0, v0) :: tl) r
      = if k0 = r.name then (k0, r) :: tl
        else (k0, v0) :: AddressBook.add_record tl r := rfl

/-- Helper: inserting a record under a fresh name makes its lookup hit
exactly that record. -/
theorem find_add_record (book : Book) (r : Record)
    (h : AddressBook.find book r.name = none) :
    AddressBook.find (AddressBook.add_record book r) r.name = some r := by
  induction book with
  | nil => simp [AddressBook.add_record, AddressBook.find]
  | cons hd tl ih =>
    obtain ⟨k0, v0⟩ := hd
    rw [find_cons] at h
    by_cases h0 : k0 = r.name
    · rw [if_pos h0] at h
      cases h
    · rw [if_neg h0] at h
      rw [add_record_cons, if_neg h0, find_cons, if_neg h0]
      exact ih h

/-- C2 (amended): on a directory with no record named `Dee`, calling
`add_contact` with name `Dee` and phone `12345` does not fail — the
string `12345` passes the phone rule of the code (its characters after
the first are at most 15 digits) — so it reports `Contact added.` and
`Dee` is stored with phone `12345`.  Moreover, for a phone value the
setter does reject (such as `1`), the error propagates but the freshly
created record for `Dee` has already been inserted: a half-built
record (empty phone list) remains in the directory. -/
theorem add_contact_dee_behavior (book : Book)
    (h : AddressBook.find book "Dee" = none) :
    (add_contact ["Dee", "12345"] book).1 = .ok "Contact added." ∧
    AddressBook.find (add_contact ["Dee", "12345"] book).2 "Dee"
      = some ⟨"Dee", ["12345"], none⟩ ∧
    (add_contact ["Dee", "1"] book).1
      = .error "Error adding phone: Wrong telephone number" ∧
    AddressBook.find (add_contact ["Dee", "1"] book).2 "Dee"
      = some ⟨"Dee", [], none⟩ := by
  have e1 : add_contact ["Dee", "12345"] book
      = (.ok "Contact added.", AddressBook.add_record book ⟨"Dee", ["12345"], none⟩) := by
    simp only [add_contact]
    rw [h]
    rfl
  have e2 : add_contact ["Dee", "1"] book
      = (.error "Error adding phone: Wrong telephone number",
         AddressBook.add_record book ⟨"Dee", [], none⟩) := by
    simp only [add_contact]
    rw [h]
    rfl
  refine ⟨by rw [e1], ?_, by rw [e2], ?_⟩
  · rw [e1]
    exact find_add_record book ⟨"Dee", ["12345"], none⟩ h
  · rw [e2]
    exact find_add_record book ⟨"Dee", [], none⟩ h

/-- C2 (witness): the amended theorem applied to the empty directory. -/
theorem add_contact_dee_behavior_witness :
    (add_contact ["Dee", "12345"] ([] : Book)).1 = .ok "Contact added." ∧
    AddressBook.find (add_contact ["Dee", "12345"] ([] : Book)).2 "Dee"
      = some ⟨"Dee", ["12345"], none⟩ ∧
    (add_contact ["Dee", "1"] ([] : Book)).1
      = .error "Error adding phone: Wrong telephone number" ∧
    AddressBook.find (add_contact ["Dee", "1"] ([] : Book)).2 "Dee"
      = some ⟨"Dee", [], none⟩ :=
  add_contact_dee_behavior ([] : Book) rfl

/-- C2 (counterexample to the claim as stated): on the empty directory,
`add_contact` with `Dee` and `12345` raises no validation error and does
add a record for `Dee` — the call returns `Contact added.` and the
lookup afterwards finds `Dee` with phone `12345` stored. -/
theorem add_contact_dee_succeeds :
    (add_contact ["Dee", "12345"] ([] : Book)).1 = Except.ok "Contact added." ∧
    (add_contact ["Dee", "12345"] ([] : Book)).2
      = [("Dee", ⟨"Dee", ["12345"], none⟩)] :=
  ⟨rfl, rfl⟩

/-- Helper: whenever the loop body of `get_upcoming_birthdays` produces
an entry, the entry carries the record name, and its date is the
weekend-rolled image of a raw candidate date that passed the window
check `current_date <= candidate <= next_week` — the check is performed
on the raw candidate, before the roll. -/
theorem upcoming_step_shape (today nw : Date) (r : Record) (nm : String) (d : Date)
    (h : upcoming_step today nw r = .ok (some (nm, d))) :
    nm = r.name ∧ ∃ c, Date.leb today c = true ∧ Date.leb c nw = true ∧
      rollWeekend c = some d := by
  unfold upcoming_step at h
  split at h
  · simp at h
  · split at h
    · simp at h
    · rename_i nb h1
      split at h
      · rename_i h2
        split at h
        · rename_i d0 h3
          simp only [Except.ok.injEq, Option.some.injEq, Prod.mk.injEq] at h
          obtain ⟨hnm, hd⟩ := h
          exact ⟨hnm.symm, nb, (Bool.and_eq_true_iff.mp h2).1,
            (Bool.and_eq_true_iff.mp h2).2, by rw [h3, hd]⟩
        · simp at h
      · rename_i h2
        split at h
        · rename_i h4
          split at h
          · simp at h
          · rename_i nb2 h5
            split at h
            · rename_i h6
              split at h
              · rename_i d0 h7
                simp only [Except.ok.injEq, Option.some.injEq, Prod.mk.injEq] at h
                obtain ⟨hnm, hd⟩ := h
                exact ⟨hnm.symm, nb2, (Bool.and_eq_true_iff.mp h6).1,
                  (Bool.and_eq_true_iff.mp h6).2, by rw [h7, hd]⟩
              · simp at h
            · simp at h
        · simp at h

/-- Helper: every entry produced by the loop of `get_upcoming_birthdays`
comes from a raw candidate inside the window, rolled afterwards. -/
theorem upcomingEntriesAux_window (today nw : Date) :
    ∀ (bk : Book) (l : List (String × Date)),
      upcomingEntriesAux today nw bk = .ok l →
      ∀ e ∈ l, ∃ c, Date.leb today c = true ∧ Date.leb c nw = true ∧
        rollWeekend c = some e.2 := by
  intro bk
  induction bk with
  | nil =>
    intro l h e he
    injection h with h1
    rw [← h1] at he
    cases he
  | cons hd tl ih =>
    obtain ⟨k0, r0⟩ := hd
    intro l h e he
    unfold upcomingEntriesAux at h
    split at h
    · simp at h
    · exact ih l h e he
    · rename_i entry hs
      split at h
      · simp at h
      · rename_i l2 ht
        injection h with h1
        rw [← h1] at he
        rcases List.mem_cons.mp he with h2 | h2
        · obtain ⟨nm, d⟩ := entry
          rw [h2]
          exact (upcoming_step_shape today nw r0 nm d hs).2
        · exact ih l2 ht e h2

/-- C5 (amended): the window check of `get_upcoming_birthdays` is applied
to the raw candidate date, before the weekend roll — every returned
entry has a raw candidate `c` with `today <= c <= today + 7` whose
weekend-rolled image is the returned date; the rolled date itself can
land after `today + 7` (by up to two days), as the counterexample shows. -/
theorem upcoming_window_uses_raw_candidate (book : Book) (today : Date)
    (l : List (String × Date)) (h : AddressBook.upcomingEntries book today = .ok l) :
    ∀ e ∈ l, ∃ c, Date.leb today c = true ∧
      Date.leb c (addDays today 7) = true ∧ rollWeekend c = some e.2 :=
  upcomingEntriesAux_window today (addDays today 7) book l h

/-- C5 (witness): the amended theorem applied to the book containing Ann
(birthday 16.03.1990) on Sunday 10.03.2024: the single entry 18.03.2024
is the roll of the in-window candidate 16.03.2024. -/
theorem upcoming_window_uses_raw_candidate_witness :
    ∃ c, Date.leb ⟨2024, 3, 10⟩ c = true ∧
      Date.leb c (addDays ⟨2024, 3, 10⟩ 7) = true ∧
      rollWeekend c = some ⟨2024, 3, 18⟩ :=
  upcoming_window_uses_raw_candidate book5 ⟨2024, 3, 10⟩
    [("Ann", ⟨2024, 3, 18⟩)] rfl ("Ann", ⟨2024, 3, 18⟩) (List.mem_singleton.mpr rfl)

/-- C5 (counterexample to the claim as stated): with today the Sunday
10.03.2024 and Ann born 16.03.1990, the raw candidate 16.03.2024 (a
Saturday) passes the window check `[10.03, 17.03]` and is then rolled to
Monday 18.03.2024 — so the returned congratulation date lies outside
`today + 7`, and the roll is applied after the window check, not before. -/
theorem upcoming_rolled_outside_window :
    AddressBook.upcomingEntries book5 ⟨2024, 3, 10⟩
      = .ok [("Ann", ⟨2024, 3, 18⟩)] ∧
    Date.leb ⟨2024, 3, 18⟩ (addDays ⟨2024, 3, 10⟩ 7) = false := ⟨rfl, rfl⟩

/-- C6 (counterexample to the claim as stated): with `windowDays = 0`
the method still returns Ann, whose post-roll congratulation date
07.03.2024 (a Thursday, unrolled) differs from today 04.03.2024 — not
an exact same-day match. -/
theorem upcoming_ignores_zero_window :
    AddressBook.get_upcoming_birthdays book6 ⟨2024, 3, 4⟩ 0
      = .ok ["Ann: 07,03,2024"] ∧
    AddressBook.upcomingEntries book6 ⟨2024, 3, 4⟩
      = .ok [("Ann", ⟨2024, 3, 7⟩)] ∧
    (⟨2024, 3, 7⟩ : Date) ≠ (⟨2024, 3, 4⟩ : Date) := ⟨rfl, rfl, by decide⟩

/-- C6 (amended): the `days` argument of `get_upcoming_birthdays` is
ignored — the body compares against the fixed
`next_week = current_date + timedelta(weeks=1)` — so the result for any
`days` value equals the result for the declared default 7, and the
window is always the fixed seven-day one. -/
theorem upcoming_days_param_ignored (book : Book) (today : Date) (days : Nat) :
    AddressBook.get_upcoming_birthdays book today days
      = AddressBook.get_upcoming_birthdays book today 7 := rfl

/-- C7: leap-day birthdays crash `get_upcoming_birthdays` — with Bob
born 29.02.2000 and today 01.01.2025 (2025 is not a leap year),
`record.birthday.date.replace(year=2025)` raises
`ValueError: day is out of range for month` instead of falling back to
28.02.2025, so the whole call raises instead of completing. -/
theorem upcoming_feb29_crashes :
    AddressBook.upcomingEntries book7 ⟨2025, 1, 1⟩
      = .error "day is out of range for month" ∧
    AddressBook.get_upcoming_birthdays book7 ⟨2025, 1, 1⟩ 7
      = .error "day is out of range for month" := ⟨rfl, rfl⟩

/-- Helper: the names of the entries produced by the loop of
`get_upcoming_birthdays` form a subsequence of the record names in
insertion order — each record contributes at most one entry, in order,
and no reordering ever happens. -/
theorem upcomingEntriesAux_names (today nw : Date) :
    ∀ (bk : Book) (l : List (String × Date)),
      upcomingEntriesAux today nw bk = .ok l →
      (l.map Prod.fst).Sublist (bk.map fun p => p.2.name) := by
  intro bk
  induction bk with
  | nil =>
    intro l h
    injection h with h1
    rw [← h1]
    simp
  | cons hd tl ih =>
    obtain ⟨k0, r0⟩ := hd
    intro l h
    unfold upcomingEntriesAux at h
    split at h
    · simp at h
    · exact List.Sublist.cons r0.name (ih l h)
    · rename_i entry hs
      split at h
      · simp at h
      · rename_i l2 ht
        injection h with h1
        rw [← h1]
        obtain ⟨nm, d⟩ := entry
        rw [show ((nm, d) :: l2).map Prod.fst = nm :: l2.map Prod.fst from rfl,
          (upcoming_step_shape today nw r0 nm d hs).1]
        simp only [List.map_cons]
        exact List.Sublist.cons₂ r0.name (ih l2 ht)

/-- C8 (amended): the sequence returned by `get_upcoming_birthdays` is
not sorted — the entries appear in record insertion order (their names
form a subsequence of the record names in order), and each entry is the
record name followed by the congratulation date formatted DD,MM,YYYY
with commas, not dots. -/
theorem upcoming_order_and_format (book : Book) (today : Date) (days : Nat)
    (l : List (String × Date)) (h : AddressBook.upcomingEntries book today = .ok l) :
    AddressBook.get_upcoming_birthdays book today days
      = .ok (l.map fun e => fmtEntry e.1 e.2) ∧
    (l.map Prod.fst).Sublist (book.map fun p => p.2.name) := by
  constructor
  · unfold AddressBook.get_upcoming_birthdays
    rw [h]
    rfl
  · exact upcomingEntriesAux_names today (addDays today 7) book l h

/-- C8 (witness): the amended theorem applied to the two-record book
with A before B. -/
theorem upcoming_order_and_format_witness :
    AddressBook.get_upcoming_birthdays book8 ⟨2024, 3, 4⟩ 7
      = .ok ["A: 11,03,2024", "B: 05,03,2024"] ∧
    (["A", "B"] : List String).Sublist (book8.map fun p => p.2.name) :=
  upcoming_order_and_format book8 ⟨2024, 3, 4⟩ 7
    [("A", ⟨2024, 3, 11⟩), ("B", ⟨2024, 3, 5⟩)] rfl

/-- C8 (counterexample to the claim as stated): records A (candidate
09.03.2024, rolled to Monday 11.03.2024) and B (candidate 05.03.2024)
were inserted in the order A, B; the result keeps that insertion order,
so the first date 11.03 is later than the second 05.03 — the sequence is
not sorted by ascending congratulation date — and the date texts are
comma-separated, not `DD.MM.YYYY`. -/
theorem upcoming_unsorted_comma_format :
    AddressBook.get_upcoming_birthdays book8 ⟨2024, 3, 4⟩ 7
      = .ok ["A: 11,03,2024", "B: 05,03,2024"] ∧
    AddressBook.upcomingEntries book8 ⟨2024, 3, 4⟩
      = .ok [("A", ⟨2024, 3, 11⟩), ("B", ⟨2024, 3, 5⟩)] ∧
    Date.leb ⟨2024, 3, 11⟩ ⟨2024, 3, 5⟩ = false := ⟨rfl, rfl, rfl⟩
